import Mathlib

/-!
Verification of the django_vision repository's derived-state consistency rules.

Shallow embedding conventions:
* Django `DecimalField` values are modelled as exact rationals (`ℚ`); Python's
  `Decimal` arithmetic is exact on all quantities appearing here (products of
  integers divided by 100 stay within `Decimal`'s 28-digit context).
* `PositiveIntegerField` values are modelled as `Nat`.
* A model's `save` is modelled as a pure function on the record (plus, where the
  save touches sibling rows, an explicit database state given as a `List` of
  records keyed by primary key `pk`).
* Fallible saves (`full_clean`/`clean` raising `ValidationError`, methods
  raising `ValueError`) return `Except`/carry an explicit error component.
-/

namespace DjangoVision

/-! ## d_homestuff.models.Product -/

namespace Homestuff

/-- `d_homestuff.models.Product` — the fields read or written by `Product.save`
(lines 156-164): `name`, `slug`, `base_price`, `discount_percent`,
`final_price`.  `base_price` and `final_price` are `DecimalField`s (exact
rationals here), `discount_percent` a `PositiveIntegerField`. -/
structure Product where
  name : String
  slug : String
  base_price : ℚ
  discount_percent : Nat
  final_price : ℚ

/-- `Product.save` (d_homestuff/models.py lines 156-164): slugify the name when
`slug` is empty, then recompute
`final_price = base_price - (base_price * discount_percent) / 100`.
The `slugify` collaborator is abstracted as a function argument. -/
def Product.save (slugify : String → String) (p : Product) : Product :=
  let p1 := if p.slug = "" then { p with slug := slugify p.name } else p
  let discount_amount := (p1.base_price * (p1.discount_percent : ℚ)) / 100
  { p1 with final_price := p1.base_price - discount_amount }

/-- `d_homestuff.models.OrderItem` — the fields read or written by
`OrderItem.save` (lines 405-407). -/
structure OrderItem where
  quantity : Nat
  unit_price : ℚ
  total_price : ℚ

/-- `OrderItem.save` (d_homestuff/models.py lines 405-407):
`total_price = unit_price * quantity`. -/
def OrderItem.save (i : OrderItem) : OrderItem :=
  { i with total_price := i.unit_price * (i.quantity : ℚ) }

end Homestuff

/-! ## e_payment.models.OrderItem and e_payment.models.Payment -/

namespace EPayment

/-- `e_payment.models.OrderItem` — the fields read or written by
`OrderItem.save` (lines 227-229). -/
structure OrderItem where
  quantity : Nat
  unit_price : ℚ
  total_price : ℚ

/-- `OrderItem.save` (e_payment/models.py lines 227-229):
`total_price = unit_price * quantity`. -/
def OrderItem.save (i : OrderItem) : OrderItem :=
  { i with total_price := i.unit_price * (i.quantity : ℚ) }

/-- `e_payment.models.Payment` — the fields read or written by `Payment.save`
(lines 320-328).  `payment_date` is a nullable `DateTimeField`; instants are
abstracted as `Nat` and Python's `None` as `Option.none` (a `datetime` value is
always truthy, so `not self.payment_date` is exactly `payment_date = none`). -/
structure Payment where
  payment_id : String
  status : String
  payment_date : Option Nat

/-- `Payment.save` (e_payment/models.py lines 320-328): generate `payment_id`
when blank (the fresh `uuid4`-derived id is abstracted as an argument), and set
`payment_date = timezone.now()` exactly when `status == 'completed'` and
`payment_date` is unset. -/
def Payment.save (now : Nat) (freshId : String) (p : Payment) : Payment :=
  let p1 := if p.payment_id = "" then { p with payment_id := freshId } else p
  if p1.status = "completed" ∧ p1.payment_date = none then
    { p1 with payment_date := some now }
  else p1

end EPayment

/-! ## accounts.models: CustomerProfile loyalty state and AdminProfile -/

namespace Accounts

/-- `accounts.models.CustomerProfile` — the loyalty fields read or written by
`update_loyalty_tier`, `add_loyalty_points` and `spend_loyalty_points`
(accounts/models.py lines 378-391, 433-484).  All three counters are
`PositiveIntegerField`s. -/
structure CustomerProfile where
  loyalty_tier : String
  loyalty_points : Nat
  loyalty_points_earned : Nat
  loyalty_points_spent : Nat
deriving DecidableEq

/-- The `if points >= 10000 ... else 'bronze'` chain of
`CustomerProfile.update_loyalty_tier` (accounts/models.py lines 436-445),
factored out as a function of the points counter. -/
def tierForPoints (points : Nat) : String :=
  if points ≥ 10000 then "diamond"
  else if points ≥ 5000 then "platinum"
  else if points ≥ 2000 then "gold"
  else if points ≥ 500 then "silver"
  else "bronze"

/-- `CustomerProfile.update_loyalty_tier` (accounts/models.py lines 433-450):
recompute the tier from `loyalty_points`; persist (`save`) only when the tier
changed.  The boolean result records whether a write was performed. -/
def CustomerProfile.update_loyalty_tier (c : CustomerProfile) : CustomerProfile × Bool :=
  let new_tier := tierForPoints c.loyalty_points
  if new_tier ≠ c.loyalty_tier then ({ c with loyalty_tier := new_tier }, true)
  else (c, false)

/-- Modelled from the spec: `recompute_tier(counter_value, thresholds)` — given
`(threshold, label)` pairs sorted descending by threshold, return the first
label whose threshold is `≤` the counter, else the default.  Used only to
compare the code's tier chain against the spec's description. -/
def specRecomputeTier : List (Nat × String) → String → Nat → String
  | [], dflt, _ => dflt
  | (t, label) :: rest, dflt, points =>
      if t ≤ points then label else specRecomputeTier rest dflt points

/-- The spec's loyalty threshold table, descending. -/
def loyaltyThresholds : List (Nat × String) :=
  [(10000, "diamond"), (5000, "platinum"), (2000, "gold"), (500, "silver"), (0, "bronze")]

/-- A customer profile holding `p` loyalty points (fresh profile otherwise). -/
def profileWithPoints (p : Nat) : CustomerProfile :=
  { loyalty_tier := "bronze", loyalty_points := p,
    loyalty_points_earned := 0, loyalty_points_spent := 0 }

/-! ### Django `F()` expressions in the loyalty point mutators

`add_loyalty_points` and `spend_loyalty_points` assign
`self.loyalty_points = models.F('loyalty_points') ± points` before saving, so
after the save the in-memory attribute holds a combined expression
`F('loyalty_points') ± points`, not a number.  The subsequent
`LoyaltyHistory.objects.create(..., balance_after=self.loyalty_points ± points)`
therefore passes the expression `F('loyalty_points') ± 2·points` as the
`balance_after` column of the INSERT into `LoyaltyHistory`; resolving
`F('loyalty_points')` against `LoyaltyHistory` fails (`LoyaltyHistory` has no
`loyalty_points` column), so the create raises `FieldError` after the profile
row was already updated, and no history row is inserted. -/

/-- A Python-level value that is either a plain integer or a Django combined
expression `F('column') + offset`. -/
inductive FExpr where
  | lit : Int → FExpr
  | fref : String → Int → FExpr
deriving DecidableEq

/-- Python `+` on a loyalty-points attribute value: adding an integer to a
combined expression extends its offset. -/
def FExpr.addInt : FExpr → Int → FExpr
  | .lit n, m => .lit (n + m)
  | .fref c o, m => .fref c (o + m)

/-- Python `-` on a loyalty-points attribute value. -/
def FExpr.subInt : FExpr → Int → FExpr
  | .lit n, m => .lit (n - m)
  | .fref c o, m => .fref c (o - m)

/-- Resolution of a value supplied for a column of an INSERT into
`LoyaltyHistory`: a literal is usable as-is; an `F('loyalty_points')`-based
expression cannot be resolved (`LoyaltyHistory` has no such column — its
columns are `points`, `balance_after`, `reason`, `type`, `reference_type`,
`reference_id`), so Django raises `FieldError`, modelled as `none`. -/
def resolveForHistoryInsert : FExpr → Option Int
  | .lit n => some n
  | .fref _ _ => none

/-- Exceptions the loyalty mutators can raise: the explicit
`ValueError("Not enough loyalty points")` of `spend_loyalty_points`, and the
`FieldError` raised when an unresolvable `F()` expression reaches the
`LoyaltyHistory` insert. -/
inductive DjangoError where
  | valueError : String → DjangoError
  | fieldError : DjangoError
deriving DecidableEq

/-- A row of `accounts.models.LoyaltyHistory` (lines 799-806), restricted to
the columns the mutators write. -/
structure HistoryEntry where
  points : Int
  balance_after : Int
  reason : String
  type : String
deriving DecidableEq

/-- The persisted state a loyalty mutation touches: the customer profile row
and the `LoyaltyHistory` rows of that customer. -/
structure LoyaltyDB where
  profile : CustomerProfile
  history : List HistoryEntry
deriving DecidableEq

/-- `CustomerProfile.add_loyalty_points` (accounts/models.py lines 452-466),
called on a freshly loaded instance (in-memory attributes equal the stored
row).  The `F()` counter updates resolve against the profile row in
`self.save(update_fields=...)`; the history insert then receives
`self.loyalty_points + points = F('loyalty_points') + 2·points`, which raises
`FieldError` (see `resolveForHistoryInsert`), so neither the history append nor
the `update_loyalty_tier` call is reached.  The result pairs the final stored
state with the exception raised, if any. -/
def CustomerProfile.add_loyalty_points (db : LoyaltyDB) (points : Nat) (reason : String) :
    LoyaltyDB × Option DjangoError :=
  let selfLoyaltyPoints := FExpr.addInt (.fref "loyalty_points" 0) (points : Int)
  let prof := { db.profile with
    loyalty_points := db.profile.loyalty_points + points,
    loyalty_points_earned := db.profile.loyalty_points_earned + points }
  let db1 := { db with profile := prof }
  match resolveForHistoryInsert (selfLoyaltyPoints.addInt (points : Int)) with
  | some v =>
      let db2 : LoyaltyDB := { db1 with history := db1.history ++
        [{ points := (points : Int), balance_after := v, reason := reason, type := "earn" }] }
      ({ db2 with profile := (db2.profile.update_loyalty_tier).1 }, none)
  | none => (db1, some .fieldError)

/-- `CustomerProfile.spend_loyalty_points` (accounts/models.py lines 468-484),
called on a freshly loaded instance.  If `points > self.loyalty_points`, raise
`ValueError("Not enough loyalty points")` with no state change; otherwise
update the counters and attempt the history insert, which receives
`self.loyalty_points - points = F('loyalty_points') - 2·points` and raises
`FieldError`. -/
def CustomerProfile.spend_loyalty_points (db : LoyaltyDB) (points : Nat) (reason : String) :
    LoyaltyDB × Option DjangoError :=
  if points > db.profile.loyalty_points then
    (db, some (.valueError "Not enough loyalty points"))
  else
    let selfLoyaltyPoints := FExpr.subInt (.fref "loyalty_points" 0) (points : Int)
    let prof := { db.profile with
      loyalty_points := db.profile.loyalty_points - points,
      loyalty_points_spent := db.profile.loyalty_points_spent + points }
    let db1 := { db with profile := prof }
    match resolveForHistoryInsert (selfLoyaltyPoints.subInt (points : Int)) with
    | some v =>
        let db2 : LoyaltyDB := { db1 with history := db1.history ++
          [{ points := -(points : Int), balance_after := v, reason := reason,
             type := "spend" }] }
        (db2, none)
    | none => (db1, some .fieldError)

/-! ### AdminProfile -/

/-- `AdminProfile.Role` (accounts/models.py lines 643-653). -/
inductive Role where
  | superuser
  | system_admin
  | content_manager
  | product_manager
  | order_manager
  | customer_support
  | finance_manager
  | marketing_manager
  | analytics
  | security
deriving DecidableEq

/-- `accounts.models.AdminProfile` — the fields read or written by
`AdminProfile.save` (lines 716-748): the role, the numeric security level
(`SecurityLevel`, 1-5), and the eleven capability flags. -/
structure AdminProfile where
  role : Role
  security_level : Nat
  can_manage_users : Bool
  can_manage_sellers : Bool
  can_manage_products : Bool
  can_manage_orders : Bool
  can_manage_content : Bool
  can_manage_promotions : Bool
  can_view_reports : Bool
  can_manage_finances : Bool
  can_manage_settings : Bool
  can_access_audit_logs : Bool
  can_manage_roles : Bool
deriving DecidableEq

/-- The `role_to_security_level` dict of `AdminProfile.save` (lines 718-729).
Every role is a key of the dict, so the guarded assignment
`if self.role in role_to_security_level` always fires. -/
def roleSecurityLevel : Role → Nat
  | .superuser => 5
  | .system_admin => 4
  | .finance_manager => 4
  | .security => 4
  | .product_manager => 3
  | .order_manager => 3
  | .marketing_manager => 3
  | .analytics => 3
  | .content_manager => 2
  | .customer_support => 1

/-- `AdminProfile.save` (accounts/models.py lines 716-748): recompute
`security_level` from the role, then force every capability flag to `True` when
the role is `SUPERUSER`. -/
def AdminProfile.save (a : AdminProfile) : AdminProfile :=
  let a1 := { a with security_level := roleSecurityLevel a.role }
  if a1.role = Role.superuser then
    { a1 with
      can_manage_users := true
      can_manage_sellers := true
      can_manage_products := true
      can_manage_orders := true
      can_manage_content := true
      can_manage_promotions := true
      can_view_reports := true
      can_manage_finances := true
      can_manage_settings := true
      can_access_audit_logs := true
      can_manage_roles := true }
  else a1

end Accounts

/-! ## a_bookstore.models.Book -/

namespace Bookstore

/-- `a_bookstore.models.Book` — the fields read by `discount_percentage`
(a_bookstore/models.py lines 121-122, 153-157): `base_price` and the nullable
`discount_price`. -/
structure Book where
  base_price : ℚ
  discount_price : Option ℚ

/-- Python's `int()` applied to an exact `Decimal`/rational value: truncation
toward zero (numerator `tdiv` denominator of the reduced fraction). -/
def pyInt (q : ℚ) : ℤ := q.num.tdiv (q.den : ℤ)

/-- `Book.discount_percentage` (a_bookstore/models.py lines 153-157):
`int(((base_price - discount_price) / base_price) * 100)` when
`self.discount_price` is truthy — i.e. non-`None` and nonzero, since
`Decimal('0')` is falsy in Python — and `0` otherwise. -/
def Book.discount_percentage (b : Book) : ℤ :=
  match b.discount_price with
  | some d =>
      if d ≠ 0 then pyInt ((b.base_price - d) / b.base_price * 100) else 0
  | none => 0

/-- Modelled from the spec's amendment target: integer truncation toward zero
of a rational, written with floors. -/
def truncTowardZero (q : ℚ) : ℤ := if 0 ≤ q then ⌊q⌋ else -⌊-q⌋

end Bookstore

/-! ## Default-flag exclusivity: sibling-record scopes

The flag-cascade saves touch sibling rows, so they are modelled against an
explicit database state: a `List` of records keyed by primary key `pk`. -/

/-- `super().save()` on a model instance: UPDATE the row with the same primary
key when one exists, otherwise INSERT the record at the end. -/
def djUpsert {α : Type} (pk : α → Nat) (db : List α) (a : α) : List α :=
  if db.any (fun r => pk r == pk a) then
    db.map (fun r => if pk r == pk a then a else r)
  else db ++ [a]

namespace Homestuff

/-- `d_homestuff.models.Address` — the fields read or written by `Address.save`
(lines 288-292): primary key, owning customer, and the default flag. -/
structure Address where
  pk : Nat
  customer : Nat
  is_default : Bool
deriving DecidableEq

/-- The cascade of `Address.save`:
`Address.objects.filter(customer=self.customer, is_default=True).update(is_default=False)`
— clear the flag on every address of the customer that currently has it (the
queryset does not exclude the saved row's own pk). -/
def clearDefaultAddresses (customer : Nat) (db : List Address) : List Address :=
  db.map fun r =>
    if r.customer == customer && r.is_default then { r with is_default := false } else r

/-- `Address.save` (d_homestuff/models.py lines 288-292): when the record is
marked default, clear the flag on the customer's other default addresses, then
persist the record. -/
def Address.save (db : List Address) (a : Address) : List Address :=
  let db1 := if a.is_default then clearDefaultAddresses a.customer db else db
  djUpsert (fun r => r.pk) db1 a

/-- `d_homestuff.models.ProductImage` — the fields read or written by
`ProductImage.save` (lines 216-220). -/
structure ProductImage where
  pk : Nat
  product : Nat
  is_default : Bool
deriving DecidableEq

/-- The cascade of `ProductImage.save`:
`ProductImage.objects.filter(product=self.product, is_default=True).update(is_default=False)`. -/
def clearDefaultImages (product : Nat) (db : List ProductImage) : List ProductImage :=
  db.map fun r =>
    if r.product == product && r.is_default then { r with is_default := false } else r

/-- `ProductImage.save` (d_homestuff/models.py lines 216-220): when the image
is marked default, clear the flag on the product's other default images, then
persist the record. -/
def ProductImage.save (db : List ProductImage) (a : ProductImage) : List ProductImage :=
  let db1 := if a.is_default then clearDefaultImages a.product db else db
  djUpsert (fun r => r.pk) db1 a

end Homestuff

namespace Techstore

/-- `b_techstore.models.ProductImage` (b_techstore/models.py lines 86-97) —
primary key, owning product and the `is_main` flag (line 90). -/
structure ProductImage where
  pk : Nat
  product : Nat
  is_main : Bool
deriving DecidableEq

/-- `b_techstore.models.ProductImage` declares no `save` override, no `clean`
and no signal: saving is the framework's plain `Model.save`, an upsert with no
side effect on sibling rows. -/
def ProductImage.save (db : List ProductImage) (a : ProductImage) : List ProductImage :=
  djUpsert (fun r => r.pk) db a

end Techstore

namespace Fashionstore

/-- `c_fashionstore.models.ClothingProductImage` (c_fashionstore/models.py
lines 144-157) — primary key, owning product and the `is_main` flag
(line 150). -/
structure ClothingProductImage where
  pk : Nat
  product : Nat
  is_main : Bool
deriving DecidableEq

/-- `c_fashionstore.models.ClothingProductImage` declares no `save` override,
no `clean` and no signal: saving is the framework's plain `Model.save`, an
upsert with no side effect on sibling rows. -/
def ClothingProductImage.save (db : List ClothingProductImage)
    (a : ClothingProductImage) : List ClothingProductImage :=
  djUpsert (fun r => r.pk) db a

end Fashionstore

namespace Accounts

/-- `accounts.models.Address` — the fields read or written by `Address.clean`
and `Address.save` (lines 313-327): primary key, owning user, address type
(the scope partition key) and the default flag.  The `AddressType` values are
kept as their `TextChoices` strings. -/
structure Address where
  pk : Nat
  user : Nat
  address_type : String
  is_default : Bool
deriving DecidableEq

/-- `Address.clean` (accounts/models.py lines 313-323): when the record is
marked default and another default address of the same user and type exists
(excluding the record's own row), raise `ValidationError`. -/
def Address.clean (db : List Address) (a : Address) : Except String Unit :=
  if a.is_default &&
      db.any (fun r =>
        r.user == a.user && r.address_type == a.address_type && r.is_default
          && !(r.pk == a.pk)) then
    .error "There is already a default address of this type for this user."
  else .ok ()

/-- `Address.save` (accounts/models.py lines 325-327): run `clean` (propagating
its `ValidationError`), then persist the record.  No sibling row is modified. -/
def Address.save (db : List Address) (a : Address) : Except String (List Address) :=
  match Address.clean db a with
  | .error e => .error e
  | .ok _ => .ok (djUpsert (fun r => r.pk) db a)

end Accounts

end DjangoVision

namespace DjangoVision

open Homestuff EPayment

/-- A concrete product used to instantiate hypotheses of claim theorems. -/
def sampleProduct : Homestuff.Product :=
  { name := "lamp", slug := "lamp", base_price := 200, discount_percent := 15,
    final_price := 0 }

/-- C2: for every product with `base_price > 0` and `0 ≤ discount_percent ≤ 100`
(the lower bound is inherent: `discount_percent` is a `PositiveIntegerField`),
after `Product.save` the stored `final_price` equals
`base_price - base_price * discount_percent / 100` and is non-negative. -/
theorem C2_final_price_formula (slugify : String → String) (p : Homestuff.Product)
    (hbase : 0 < p.base_price) (hdisc : p.discount_percent ≤ 100) :
    (p.save slugify).final_price
        = p.base_price - p.base_price * (p.discount_percent : ℚ) / 100 ∧
    0 ≤ (p.save slugify).final_price := by
  have hform : (p.save slugify).final_price
      = p.base_price - p.base_price * (p.discount_percent : ℚ) / 100 := by
    unfold Product.save
    dsimp only
    split <;> rfl
  refine ⟨hform, ?_⟩
  rw [hform]
  have hd : (p.discount_percent : ℚ) ≤ 100 := by exact_mod_cast hdisc
  have hd0 : (0 : ℚ) ≤ (p.discount_percent : ℚ) := by positivity
  nlinarith

/-- C2 witness: the product with `base_price = 200`, `discount_percent = 15`
saves to `final_price = 170 = 200 - 200 * 15 / 100 ≥ 0`. -/
theorem C2_final_price_formula_witness :
    (0 : ℚ) < sampleProduct.base_price ∧ sampleProduct.discount_percent ≤ 100 ∧
    ((sampleProduct.save id).final_price
        = sampleProduct.base_price
            - sampleProduct.base_price * (sampleProduct.discount_percent : ℚ) / 100 ∧
     0 ≤ (sampleProduct.save id).final_price) :=
  ⟨by decide, by decide,
   C2_final_price_formula id sampleProduct (by decide) (by decide)⟩

/-- C6: the derivation step is idempotent — saving an already-saved record
(same `base_price`/`discount_percent`, same `unit_price`/`quantity`) leaves
`final_price` (d_homestuff `Product`) and `total_price` (e_payment `OrderItem`)
unchanged. -/
theorem C6_derivations_idempotent :
    (∀ (slugify : String → String) (p : Homestuff.Product),
        ((p.save slugify).save slugify).final_price = (p.save slugify).final_price) ∧
    (∀ i : EPayment.OrderItem, (i.save.save).total_price = i.save.total_price) := by
  constructor
  · intro slugify p
    unfold Homestuff.Product.save
    dsimp only
    split <;> (try split) <;> rfl
  · intro i
    rfl

/-- C9: after `OrderItem.save` (both the e_payment and d_homestuff variants)
the stored `total_price` equals `unit_price * quantity`; in particular
`unit_price = 19.99`, `quantity = 3` yields `total_price = 59.97`. -/
theorem C9_line_item_total :
    (∀ i : EPayment.OrderItem, i.save.total_price = i.unit_price * (i.quantity : ℚ)) ∧
    (∀ i : Homestuff.OrderItem, i.save.total_price = i.unit_price * (i.quantity : ℚ)) ∧
    (EPayment.OrderItem.save
        { quantity := 3, unit_price := 19.99, total_price := 0 }).total_price
      = 59.97 := by
  refine ⟨fun i => rfl, fun i => rfl, ?_⟩
  show (19.99 : ℚ) * (3 : ℚ) = 59.97
  norm_num

/-- A concrete pending payment used to instantiate claim C10's theorem. -/
def samplePendingPayment : EPayment.Payment :=
  { payment_id := "pay_1", status := "completed", payment_date := none }

/-- C10: `Payment.save` sets `payment_date` to the current time exactly when
`status = 'completed'` and `payment_date` is unset; a set `payment_date` is
never changed by a later save; and a save with status other than `'completed'`
leaves an unset `payment_date` unset. -/
theorem C10_payment_date_set_once (now : Nat) (freshId : String) (p : EPayment.Payment) :
    (p.status = "completed" ∧ p.payment_date = none →
        (p.save now freshId).payment_date = some now) ∧
    (∀ t : Nat, p.payment_date = some t → (p.save now freshId).payment_date = some t) ∧
    (p.status ≠ "completed" → (p.save now freshId).payment_date = p.payment_date) := by
  unfold EPayment.Payment.save
  dsimp only
  refine ⟨fun h => ?_, fun t ht => ?_, fun h => ?_⟩
  · split_ifs <;> simp_all
  · split_ifs <;> simp_all
  · split_ifs <;> simp_all

/-- C10 witness: a completed payment with unset `payment_date` gets
`payment_date = now`; a payment with `payment_date` already set keeps it; a
pending payment keeps `payment_date` unset. -/
theorem C10_payment_date_set_once_witness :
    (samplePendingPayment.save 7 "pay_2").payment_date = some 7 ∧
    (EPayment.Payment.save 9 "pay_3"
        { payment_id := "pay_1", status := "completed", payment_date := some 7 }).payment_date
      = some 7 ∧
    (EPayment.Payment.save 9 "pay_3"
        { payment_id := "pay_1", status := "pending", payment_date := none }).payment_date
      = none :=
  ⟨(C10_payment_date_set_once 7 "pay_2" samplePendingPayment).1 ⟨rfl, rfl⟩,
   (C10_payment_date_set_once 9 "pay_3"
      { payment_id := "pay_1", status := "completed", payment_date := some 7 }).2.1 7 rfl,
   by
    have h := (C10_payment_date_set_once 9 "pay_3"
      { payment_id := "pay_1", status := "pending", payment_date := none }).2.2
        (by decide)
    simpa using h⟩

section LoyaltyAndAdmin

open Accounts

theorem update_loyalty_tier_points (c : Accounts.CustomerProfile) :
    ((c.update_loyalty_tier).1).loyalty_points = c.loyalty_points := by
  unfold Accounts.CustomerProfile.update_loyalty_tier
  dsimp only
  split <;> rfl

theorem update_loyalty_tier_tier (c : Accounts.CustomerProfile) :
    ((c.update_loyalty_tier).1).loyalty_tier = tierForPoints c.loyalty_points := by
  unfold Accounts.CustomerProfile.update_loyalty_tier
  dsimp only
  split_ifs with h <;> simp_all

theorem update_loyalty_tier_noop (c : Accounts.CustomerProfile)
    (h : c.loyalty_tier = tierForPoints c.loyalty_points) :
    c.update_loyalty_tier = (c, false) := by
  unfold Accounts.CustomerProfile.update_loyalty_tier
  dsimp only
  split_ifs with hne
  · exact absurd h.symm hne
  · rfl

theorem tierForPoints_eq_spec (p : Nat) :
    tierForPoints p = specRecomputeTier loyaltyThresholds "bronze" p := by
  simp only [tierForPoints, specRecomputeTier, loyaltyThresholds]
  split_ifs <;> rfl

/-- C4: the tier chain of `update_loyalty_tier` agrees with the spec's
threshold rule (first label of the descending table
`{0: bronze, 500: silver, 2000: gold, 5000: platinum, 10000: diamond}` whose
threshold is ≤ points, i.e. the largest threshold ≤ points); in particular
499 ↦ bronze, 500 ↦ silver, 10000 ↦ diamond, 10001 ↦ diamond; and recomputing
with an unchanged points counter returns the same tier and performs no write
(the second call is a no-op with write flag `false`). -/
theorem C4_tier_recompute :
    (∀ c : Accounts.CustomerProfile,
        ((c.update_loyalty_tier).1).loyalty_tier
          = specRecomputeTier loyaltyThresholds "bronze" c.loyalty_points) ∧
    (((profileWithPoints 499).update_loyalty_tier).1.loyalty_tier = "bronze" ∧
     ((profileWithPoints 500).update_loyalty_tier).1.loyalty_tier = "silver" ∧
     ((profileWithPoints 10000).update_loyalty_tier).1.loyalty_tier = "diamond" ∧
     ((profileWithPoints 10001).update_loyalty_tier).1.loyalty_tier = "diamond") ∧
    (∀ c : Accounts.CustomerProfile,
        ((c.update_loyalty_tier).1).update_loyalty_tier = ((c.update_loyalty_tier).1, false)) := by
  refine ⟨fun c => ?_, ⟨rfl, rfl, rfl, rfl⟩, fun c => ?_⟩
  · rw [update_loyalty_tier_tier, tierForPoints_eq_spec]
  · exact update_loyalty_tier_noop _
      (by rw [update_loyalty_tier_tier, update_loyalty_tier_points])

/-- A loyalty state with 100 points, used to instantiate claims C3 and C7. -/
def loyaltyDB100 : Accounts.LoyaltyDB :=
  { profile := Accounts.profileWithPoints 100, history := [] }

/-- C3: spending more points than the balance raises
`ValueError("Not enough loyalty points")` and leaves the profile row and the
loyalty history unchanged. -/
theorem C3_spend_insufficient (db : Accounts.LoyaltyDB) (points : Nat) (reason : String)
    (h : db.profile.loyalty_points < points) :
    Accounts.CustomerProfile.spend_loyalty_points db points reason
      = (db, some (.valueError "Not enough loyalty points")) := by
  unfold Accounts.CustomerProfile.spend_loyalty_points
  rw [if_pos h]

/-- C3 witness: with balance 100, `spend_loyalty_points(150)` fails with the
insufficient-balance `ValueError`, the balance stays 100, and no history entry
is appended. -/
theorem C3_spend_insufficient_witness :
    loyaltyDB100.profile.loyalty_points < 150 ∧
    Accounts.CustomerProfile.spend_loyalty_points loyaltyDB100 150 "gift"
      = (loyaltyDB100, some (.valueError "Not enough loyalty points")) :=
  ⟨by decide, C3_spend_insufficient loyaltyDB100 150 "gift" (by decide)⟩

/-- C7: contrary to the claim, no earn or spend ever appends a history entry:
both mutators compute `balance_after` from `self.loyalty_points` after that
attribute was assigned the combined expression `F('loyalty_points') ± points`,
so the `LoyaltyHistory` insert receives an `F()` expression naming a
`CustomerProfile` column and raises `FieldError` (after the counters were
already persisted).  Every `add_loyalty_points` call, and every
`spend_loyalty_points` call, leaves the history unchanged and raises; at
balance 100, `add_loyalty_points(50)` persists balance 150, appends nothing and
raises `FieldError` instead of appending an entry with `balance_after = 150`. -/
theorem C7_history_insert_always_fails :
    (∀ (db : Accounts.LoyaltyDB) (points : Nat) (reason : String),
        (Accounts.CustomerProfile.add_loyalty_points db points reason).1.history = db.history ∧
        (Accounts.CustomerProfile.add_loyalty_points db points reason).2
          = some Accounts.DjangoError.fieldError) ∧
    (∀ (db : Accounts.LoyaltyDB) (points : Nat) (reason : String),
        (Accounts.CustomerProfile.spend_loyalty_points db points reason).1.history = db.history ∧
        (Accounts.CustomerProfile.spend_loyalty_points db points reason).2 ≠ none) ∧
    Accounts.CustomerProfile.add_loyalty_points loyaltyDB100 50 "order"
      = ({ profile := { loyalty_tier := "bronze", loyalty_points := 150,
                        loyalty_points_earned := 50, loyalty_points_spent := 0 },
           history := [] }, some Accounts.DjangoError.fieldError) := by
  refine ⟨fun db points reason => ⟨rfl, rfl⟩, fun db points reason => ?_, by decide⟩
  unfold Accounts.CustomerProfile.spend_loyalty_points
  dsimp only
  split <;> simp [Accounts.FExpr.subInt, Accounts.resolveForHistoryInsert]

/-- C5: saving an admin profile whose role is `SUPERUSER` forces
`security_level` to its maximum value 5 and all eleven capability flags to
`True`, regardless of their prior values. -/
theorem C5_superuser_elevation (a : Accounts.AdminProfile)
    (h : a.role = Accounts.Role.superuser) :
    (a.save).security_level = 5 ∧
    (a.save).can_manage_users = true ∧
    (a.save).can_manage_sellers = true ∧
    (a.save).can_manage_products = true ∧
    (a.save).can_manage_orders = true ∧
    (a.save).can_manage_content = true ∧
    (a.save).can_manage_promotions = true ∧
    (a.save).can_view_reports = true ∧
    (a.save).can_manage_finances = true ∧
    (a.save).can_manage_settings = true ∧
    (a.save).can_access_audit_logs = true ∧
    (a.save).can_manage_roles = true := by
  unfold Accounts.AdminProfile.save
  dsimp only
  rw [h]
  simp [Accounts.roleSecurityLevel]

/-- An admin profile with the superuser role, minimal prior trust: level 1 and
every capability flag `false`. -/
def superuserAllFalse : Accounts.AdminProfile :=
  { role := Accounts.Role.superuser, security_level := 1,
    can_manage_users := false, can_manage_sellers := false,
    can_manage_products := false, can_manage_orders := false,
    can_manage_content := false, can_manage_promotions := false,
    can_view_reports := false, can_manage_finances := false,
    can_manage_settings := false, can_access_audit_logs := false,
    can_manage_roles := false }

/-- C5 witness: saving a superuser profile whose flags were all `false` and
whose level was 1 yields level 5 and all flags `true`. -/
theorem C5_superuser_elevation_witness :
    superuserAllFalse.role = Accounts.Role.superuser ∧
    ((superuserAllFalse.save).security_level = 5 ∧
     (superuserAllFalse.save).can_manage_users = true ∧
     (superuserAllFalse.save).can_manage_sellers = true ∧
     (superuserAllFalse.save).can_manage_products = true ∧
     (superuserAllFalse.save).can_manage_orders = true ∧
     (superuserAllFalse.save).can_manage_content = true ∧
     (superuserAllFalse.save).can_manage_promotions = true ∧
     (superuserAllFalse.save).can_view_reports = true ∧
     (superuserAllFalse.save).can_manage_finances = true ∧
     (superuserAllFalse.save).can_manage_settings = true ∧
     (superuserAllFalse.save).can_access_audit_logs = true ∧
     (superuserAllFalse.save).can_manage_roles = true) :=
  ⟨rfl, C5_superuser_elevation superuserAllFalse rfl⟩

end LoyaltyAndAdmin

section Exclusivity

/-- In the UPDATE branch of `djUpsert`, if the saved record is in scope, every
in-scope row of the database shares the saved record's pk, and pks are unique,
then the in-scope rows of the result are exactly the saved record. -/
theorem djUpsert_replace_filter {α : Type} (pk : α → Nat) (scope : α → Bool) (a : α) :
    ∀ db : List α, scope a = true →
      (∀ r ∈ db, scope r = true → pk r = pk a) →
      (db.map pk).Nodup →
      db.any (fun r => pk r == pk a) = true →
      (db.map (fun r => if pk r == pk a then a else r)).filter scope = [a] := by
  intro db
  induction db with
  | nil => intro _ _ _ hfound; simp at hfound
  | cons x xs ih =>
    intro hA hdb hnd hfound
    simp only [List.map_cons, List.nodup_cons] at hnd
    by_cases hx : pk x = pk a
    · have hxs : xs.map (fun r => if pk r == pk a then a else r) = xs.map id := by
        apply List.map_congr_left
        intro r hr
        have hne : pk r ≠ pk a := by
          intro hEq
          exact hnd.1 (by rw [hx, ← hEq]; exact List.mem_map_of_mem pk hr)
        simp [hne]
      have hfil : xs.filter scope = [] := by
        rw [List.filter_eq_nil_iff]
        intro r hr hs
        have hpk := hdb r (List.mem_cons_of_mem x hr) hs
        exact hnd.1 (by rw [hx, ← hpk]; exact List.mem_map_of_mem pk hr)
      rw [List.map_cons, if_pos (show (pk x == pk a) = true by simp [hx]), hxs,
        List.map_id, List.filter_cons, if_pos hA, hfil]
    · have hsx : scope x = false := by
        cases hc : scope x
        · rfl
        · exact absurd (hdb x (List.mem_cons_self x xs) hc) hx
      have hfound' : xs.any (fun r => pk r == pk a) = true := by
        simpa [hx] using hfound
      have hstep := ih hA (fun r hr hs => hdb r (List.mem_cons_of_mem x hr) hs) hnd.2 hfound'
      rw [List.map_cons, if_neg (show ¬((pk x == pk a) = true) by simp [hx]),
        List.filter_cons, if_neg (by simp [hsx])]
      exact hstep

/-- In the INSERT branch of `djUpsert`, if no row of the database is in scope,
the in-scope rows of the result are exactly the saved record. -/
theorem djUpsert_append_filter {α : Type} (pk : α → Nat) (scope : α → Bool)
    (db : List α) (a : α) (hA : scope a = true)
    (hdb : ∀ r ∈ db, scope r = true → pk r = pk a)
    (hnf : db.any (fun r => pk r == pk a) = false) :
    (db ++ [a]).filter scope = [a] := by
  rw [List.filter_append]
  have h1 : db.filter scope = [] := by
    rw [List.filter_eq_nil_iff]
    intro r hr hs
    have hpk := hdb r hr hs
    have : db.any (fun r => pk r == pk a) = true :=
      List.any_eq_true.mpr ⟨r, hr, by simp [hpk]⟩
    simp [this] at hnf
  simp [h1, List.filter_cons, hA]

/-- `djUpsert` establishes the exclusivity invariant: if the saved record is
in scope, every in-scope row of the database already shares its pk, and pks
are unique, the in-scope rows after the save are exactly the saved record. -/
theorem djUpsert_filter {α : Type} (pk : α → Nat) (scope : α → Bool)
    (db : List α) (a : α) (hA : scope a = true)
    (hdb : ∀ r ∈ db, scope r = true → pk r = pk a)
    (hnd : (db.map pk).Nodup) :
    (djUpsert pk db a).filter scope = [a] := by
  unfold djUpsert
  split_ifs with hfound
  · exact djUpsert_replace_filter pk scope a db hA hdb hnd hfound
  · refine djUpsert_append_filter pk scope db a hA hdb ?_
    revert hfound
    cases db.any (fun r => pk r == pk a) <;> simp

theorem hsAddressSave_filter (db : List Homestuff.Address) (a : Homestuff.Address)
    (hA : a.is_default = true) (hnd : (db.map fun r => r.pk).Nodup) :
    (Homestuff.Address.save db a).filter
        (fun r => r.customer == a.customer && r.is_default) = [a] := by
  unfold Homestuff.Address.save
  dsimp only
  rw [if_pos hA]
  apply djUpsert_filter
  · simp [hA]
  · intro r hr hs
    exfalso
    unfold Homestuff.clearDefaultAddresses at hr
    simp only [List.mem_map] at hr
    obtain ⟨x, hx, rfl⟩ := hr
    by_cases hc : (x.customer == a.customer && x.is_default) = true
    · rw [if_pos hc] at hs
      simp at hs
    · rw [if_neg hc] at hs
      exact hc hs
  · have hmap : (Homestuff.clearDefaultAddresses a.customer db).map (fun r => r.pk)
        = db.map fun r => r.pk := by
      unfold Homestuff.clearDefaultAddresses
      rw [List.map_map]
      apply List.map_congr_left
      intro x _
      by_cases hc : (x.customer == a.customer && x.is_default) = true
      · simp only [Function.comp_apply, if_pos hc]
      · simp only [Function.comp_apply, if_neg hc]
    rw [hmap]
    exact hnd

theorem piSave_filter (db : List Homestuff.ProductImage) (a : Homestuff.ProductImage)
    (hA : a.is_default = true) (hnd : (db.map fun r => r.pk).Nodup) :
    (Homestuff.ProductImage.save db a).filter
        (fun r => r.product == a.product && r.is_default) = [a] := by
  unfold Homestuff.ProductImage.save
  dsimp only
  rw [if_pos hA]
  apply djUpsert_filter
  · simp [hA]
  · intro r hr hs
    exfalso
    unfold Homestuff.clearDefaultImages at hr
    simp only [List.mem_map] at hr
    obtain ⟨x, hx, rfl⟩ := hr
    by_cases hc : (x.product == a.product && x.is_default) = true
    · rw [if_pos hc] at hs
      simp at hs
    · rw [if_neg hc] at hs
      exact hc hs
  · have hmap : (Homestuff.clearDefaultImages a.product db).map (fun r => r.pk)
        = db.map fun r => r.pk := by
      unfold Homestuff.clearDefaultImages
      rw [List.map_map]
      apply List.map_congr_left
      intro x _
      by_cases hc : (x.product == a.product && x.is_default) = true
      · simp only [Function.comp_apply, if_pos hc]
      · simp only [Function.comp_apply, if_neg hc]
    rw [hmap]
    exact hnd

theorem acSave_filter (db db' : List Accounts.Address) (a : Accounts.Address)
    (hA : a.is_default = true) (hnd : (db.map fun r => r.pk).Nodup)
    (hok : Accounts.Address.save db a = .ok db') :
    db'.filter
        (fun r => r.user == a.user && r.address_type == a.address_type && r.is_default)
      = [a] := by
  revert hok
  unfold Accounts.Address.save
  cases hcln : Accounts.Address.clean db a with
  | error e => intro hok; exact Except.noConfusion hok
  | ok u =>
    intro hok
    injection hok with h
    subst h
    apply djUpsert_filter
    · simp [hA]
    · intro r hr hs
      unfold Accounts.Address.clean at hcln
      by_cases hcond : (a.is_default && db.any (fun r =>
          r.user == a.user && r.address_type == a.address_type && r.is_default
            && !(r.pk == a.pk))) = true
      · rw [if_pos hcond] at hcln
        exact Except.noConfusion hcln
      · have hany : db.any (fun r =>
            r.user == a.user && r.address_type == a.address_type && r.is_default
              && !(r.pk == a.pk)) = false := by
          revert hcond
          rw [hA]
          cases db.any (fun r =>
            r.user == a.user && r.address_type == a.address_type && r.is_default
              && !(r.pk == a.pk)) <;> simp
        by_cases hpk : r.pk = a.pk
        · exact hpk
        · exfalso
          have htrue : db.any (fun r =>
              r.user == a.user && r.address_type == a.address_type && r.is_default
                && !(r.pk == a.pk)) = true :=
            List.any_eq_true.mpr ⟨r, hr, by simp only [hs, Bool.true_and]; simp [hpk]⟩
          rw [htrue] at hany
          exact Bool.noConfusion hany
    · exact hnd

/-- C1 (amended): restricted to the scopes whose models enforce the default
flag, setting the flag and saving leaves exactly one flagged record in the
scope — the saved one — with every previously flagged sibling cleared.  For
`d_homestuff.Address` (scope: addresses of one customer) and
`d_homestuff.ProductImage` (scope: images of one product) the save cascades a
flag-clear over the scope, so this holds unconditionally; for
`accounts.Address` (scope: addresses of one user with one address type) the
save instead raises `ValidationError` whenever a distinct flagged sibling
exists, so whenever it completes the scope likewise holds exactly the saved
record.  Databases are assumed to have unique primary keys.  The `is_main`
image models (`b_techstore.ProductImage`, `c_fashionstore.ClothingProductImage`)
enforce nothing and are excluded: see the counterexample. -/
theorem C1_default_flag_exclusivity :
    (∀ (db : List Homestuff.Address) (a : Homestuff.Address),
        a.is_default = true → (db.map fun r => r.pk).Nodup →
        (Homestuff.Address.save db a).filter
            (fun r => r.customer == a.customer && r.is_default) = [a]) ∧
    (∀ (db : List Homestuff.ProductImage) (a : Homestuff.ProductImage),
        a.is_default = true → (db.map fun r => r.pk).Nodup →
        (Homestuff.ProductImage.save db a).filter
            (fun r => r.product == a.product && r.is_default) = [a]) ∧
    (∀ (db db' : List Accounts.Address) (a : Accounts.Address),
        a.is_default = true → (db.map fun r => r.pk).Nodup →
        Accounts.Address.save db a = .ok db' →
        db'.filter
            (fun r => r.user == a.user && r.address_type == a.address_type && r.is_default)
          = [a]) :=
  ⟨hsAddressSave_filter, piSave_filter, fun db db' a hA hnd hok =>
    acSave_filter db db' a hA hnd hok⟩

/-- A customer-7 address database: pk 1 is the current default of customer 7,
pk 2 a non-default of customer 7, pk 3 a default of customer 8. -/
def hsAddressDB : List Homestuff.Address :=
  [{ pk := 1, customer := 7, is_default := true },
   { pk := 2, customer := 7, is_default := false },
   { pk := 3, customer := 8, is_default := true }]

/-- The save that re-marks customer 7's address pk 2 as default. -/
def hsAddressNew : Homestuff.Address := { pk := 2, customer := 7, is_default := true }

/-- A product-5 image database with one current default. -/
def piImageDB : List Homestuff.ProductImage :=
  [{ pk := 1, product := 5, is_default := true }]

/-- A new default image for product 5. -/
def piImageNew : Homestuff.ProductImage := { pk := 2, product := 5, is_default := true }

/-- User 3's address database: a non-default home address and a default work
address. -/
def acAddressDB : List Accounts.Address :=
  [{ pk := 1, user := 3, address_type := "home", is_default := false },
   { pk := 2, user := 3, address_type := "work", is_default := true }]

/-- A new default home address for user 3 (no existing default of that type,
so `clean` passes). -/
def acAddressNew : Accounts.Address :=
  { pk := 3, user := 3, address_type := "home", is_default := true }

/-- C1 witness: saving a default address over a scope with an existing default
leaves exactly the saved record flagged (d_homestuff address and product
image), and the accounts-address save that completes (no conflicting default
of the same user and type) leaves exactly the saved record flagged in its
`(user, address_type)` scope. -/
theorem C1_default_flag_exclusivity_witness :
    (hsAddressNew.is_default = true ∧ (hsAddressDB.map fun r => r.pk).Nodup ∧
      (Homestuff.Address.save hsAddressDB hsAddressNew).filter
          (fun r => r.customer == hsAddressNew.customer && r.is_default)
        = [hsAddressNew]) ∧
    (piImageNew.is_default = true ∧ (piImageDB.map fun r => r.pk).Nodup ∧
      (Homestuff.ProductImage.save piImageDB piImageNew).filter
          (fun r => r.product == piImageNew.product && r.is_default)
        = [piImageNew]) ∧
    (acAddressNew.is_default = true ∧ (acAddressDB.map fun r => r.pk).Nodup ∧
      Accounts.Address.save acAddressDB acAddressNew = .ok (acAddressDB ++ [acAddressNew]) ∧
      (acAddressDB ++ [acAddressNew]).filter
          (fun r => r.user == acAddressNew.user
            && r.address_type == acAddressNew.address_type && r.is_default)
        = [acAddressNew]) :=
  ⟨⟨rfl, by decide,
    C1_default_flag_exclusivity.1 hsAddressDB hsAddressNew rfl (by decide)⟩,
   ⟨rfl, by decide,
    C1_default_flag_exclusivity.2.1 piImageDB piImageNew rfl (by decide)⟩,
   ⟨rfl, by decide, rfl,
    C1_default_flag_exclusivity.2.2 acAddressDB (acAddressDB ++ [acAddressNew])
      acAddressNew rfl (by decide) rfl⟩⟩

/-- Product 5's techstore image database: pk 1 is its current main image. -/
def tsImageDB : List Techstore.ProductImage :=
  [{ pk := 1, product := 5, is_main := true }]

/-- A second main image for techstore product 5. -/
def tsImageNew : Techstore.ProductImage := { pk := 2, product := 5, is_main := true }

/-- Product 9's fashionstore image database: pk 1 is its current main image. -/
def fsImageDB : List Fashionstore.ClothingProductImage :=
  [{ pk := 1, product := 9, is_main := true }]

/-- A second main image for fashionstore product 9. -/
def fsImageNew : Fashionstore.ClothingProductImage :=
  { pk := 2, product := 9, is_main := true }

/-- C1 counterexample: the claim also covers the `is_main` scopes, where no
enforcement exists.  Saving a second `is_main=True` image of techstore
product 5 completes (plain upsert) and leaves the scope with two flagged
records — the previously flagged sibling pk 1 is not cleared — so the scope
query does not yield exactly one flagged record; likewise for the fashionstore
clothing image model. -/
theorem C1_is_main_counterexample :
    (Techstore.ProductImage.save tsImageDB tsImageNew).filter
        (fun r => r.product == tsImageNew.product && r.is_main)
      = [{ pk := 1, product := 5, is_main := true }, tsImageNew] ∧
    ((Techstore.ProductImage.save tsImageDB tsImageNew).filter
        (fun r => r.product == tsImageNew.product && r.is_main)).length ≠ 1 ∧
    (Fashionstore.ClothingProductImage.save fsImageDB fsImageNew).filter
        (fun r => r.product == fsImageNew.product && r.is_main)
      = [{ pk := 1, product := 9, is_main := true }, fsImageNew] ∧
    ((Fashionstore.ClothingProductImage.save fsImageDB fsImageNew).filter
        (fun r => r.product == fsImageNew.product && r.is_main)).length ≠ 1 := by
  refine ⟨by decide, by decide, by decide, by decide⟩

end Exclusivity

section BookDiscount

open Bookstore

theorem pyInt_eq_truncTowardZero (q : ℚ) :
    Bookstore.pyInt q = Bookstore.truncTowardZero q := by
  unfold Bookstore.pyInt Bookstore.truncTowardZero
  by_cases h : 0 ≤ q
  · rw [if_pos h, Rat.floor_def]
    exact Int.tdiv_eq_ediv (Rat.num_nonneg.mpr h) (Int.natCast_nonneg _)
  · rw [if_neg h]
    have hnum : ¬(0 ≤ q.num) := fun hn => h (Rat.num_nonneg.mp hn)
    have h2 : (0 : ℤ) ≤ -q.num := by omega
    rw [show q.num.tdiv (q.den : ℤ) = -((-q.num).tdiv (q.den : ℤ)) by
      rw [Int.neg_tdiv, neg_neg]]
    rw [Int.tdiv_eq_ediv h2 (Int.natCast_nonneg _), Rat.floor_def, Rat.neg_num,
      Rat.neg_den]

/-- C8 counterexample: for `base_price = 3`, `discount_price = 1` the code
displays `int((2/3)*100) = 66`, while `round((2/3)*100) = 67`. -/
theorem C8_round_counterexample :
    Bookstore.Book.discount_percentage { base_price := 3, discount_price := some 1 }
      ≠ round ((((3 : ℚ) - 1) / 3) * 100) := by
  have h1 : Bookstore.Book.discount_percentage
      { base_price := 3, discount_price := some 1 } = 66 := by
    show (if (1 : ℚ) ≠ 0 then Bookstore.pyInt (((3 : ℚ) - 1) / 3 * 100) else 0) = 66
    rw [if_pos (by norm_num), pyInt_eq_truncTowardZero]
    unfold Bookstore.truncTowardZero
    rw [if_pos (by norm_num)]
    norm_num
  have h2 : round ((((3 : ℚ) - 1) / 3) * 100) = 67 := by
    norm_num [round_eq]
  rw [h1, h2]
  decide

/-- C8 (amended): for every book with `base_price > 0`, the displayed discount
percentage equals the integer truncation (toward zero) of
`(base_price - discount_price) / base_price * 100` when a truthy (nonzero)
discount price is set, and equals 0 when no discount price is set. -/
theorem C8_discount_percentage_truncation (base d : ℚ) (hbase : 0 < base) (hd : d ≠ 0) :
    Bookstore.Book.discount_percentage { base_price := base, discount_price := some d }
        = Bookstore.truncTowardZero ((base - d) / base * 100) ∧
    ∀ b0 : ℚ,
      Bookstore.Book.discount_percentage { base_price := b0, discount_price := none } = 0 := by
  refine ⟨?_, fun b0 => rfl⟩
  show (if d ≠ 0 then Bookstore.pyInt ((base - d) / base * 100) else 0)
      = Bookstore.truncTowardZero ((base - d) / base * 100)
  rw [if_pos hd, pyInt_eq_truncTowardZero]

/-- C8 witness: `base_price = 4`, `discount_price = 1` displays
`trunc((3/4)*100) = 75`. -/
theorem C8_discount_percentage_truncation_witness :
    (0 : ℚ) < 4 ∧ (1 : ℚ) ≠ 0 ∧
    (Bookstore.Book.discount_percentage { base_price := 4, discount_price := some 1 }
        = Bookstore.truncTowardZero (((4 : ℚ) - 1) / 4 * 100) ∧
     ∀ b0 : ℚ,
       Bookstore.Book.discount_percentage { base_price := b0, discount_price := none } = 0) :=
  ⟨by decide, by decide, C8_discount_percentage_truncation 4 1 (by decide) (by decide)⟩

end BookDiscount

end DjangoVision
